/-
Verification of the abr_jaco2 repository: a shallow embedding of
src/abr_jaco2/interface/interface.py and the two control-loop example
scripts (src/examples/adaptive_reach.py, src/examples/control_loop_speed_test.py),
together with theorems settling the specification claims about them.

Numeric code is embedded over the exact reals: numpy float vectors become
functions `Fin 6 → ℝ` (the Jaco2 has N_JOINTS = 6), `np.pi` becomes
`Real.pi`, and Python's float `%` becomes `pymod` below.
-/
import Mathlib

namespace AbrJaco2

/-! ## Unit conversions (interface.py)

The interface converts between hardware-native degrees and
controller-native radians:
* `get_feedback`: `feedback['q'] = (np.array(feedback['q']) * np.pi / 180.0) % (2 * np.pi)`
  and `feedback['dq'] = np.array(feedback['dq']) * np.pi / 180.0`;
* `send_target_angles`: `q = np.array(q) * 180.0 / np.pi`.
-/

/-- Python float modulo: `a % b = a - b * floor(a / b)` (result has the sign
of `b`), which is what numpy applies elementwise in `get_feedback`. -/
noncomputable def pymod (a b : ℝ) : ℝ := a - b * ⌊a / b⌋

/-- The degrees-to-radians conversion `x * np.pi / 180.0` from `get_feedback`. -/
noncomputable def degToRad (x : ℝ) : ℝ := x * Real.pi / 180

/-- The radians-to-degrees conversion `x * 180.0 / np.pi` from `send_target_angles`. -/
noncomputable def radToDeg (x : ℝ) : ℝ := x * 180 / Real.pi

/-- The `% (2 * np.pi)` normalization applied to joint positions in `get_feedback`. -/
noncomputable def normalize (x : ℝ) : ℝ := pymod x (2 * Real.pi)

/-! ## Hardware interface model (interface.py)

The Python `interface` class holds only the handle `self.jaco2` to the
opaque cython driver `jaco2_rs485.pyJaco2`; it keeps no other fields and
never reassigns the handle.  We model the observable world behind that
handle as a `LinkState`:
* `calls` is the log of primitives the interface forwards to the driver
  (the wire traffic);
* `mode` models the hardware-held control mode switched by the
  `InitForceMode` / `InitPositionMode` primitives;
* `raw` and `torqueLoad` model the responses the driver would currently
  return for `GetFeedback` and `GetTorqueLoad`.
Each Python method becomes a function on `LinkState` (returning the read
value as well, for the reading methods).
-/

/-- Raw hardware feedback as returned by `jaco2.GetFeedback()`:
joint positions in degrees and velocities in degrees/sec. -/
structure RawFeedback where
  q : Fin 6 → ℝ
  dq : Fin 6 → ℝ

/-- Converted feedback as returned by `interface.get_feedback()`:
positions in radians (normalized), velocities in radians/sec. -/
structure Feedback where
  q : Fin 6 → ℝ
  dq : Fin 6 → ℝ

/-- The control mode of the arm (spec data model `ControlMode`). -/
inductive ControlMode where
  | uninitialized
  | positionControl
  | forceControl
deriving DecidableEq

/-- The primitives of the opaque hardware link (`jaco2_rs485.pyJaco2`). -/
inductive LinkCall where
  | Connect
  | Disconnect
  | GetFeedback
  | GetTorqueLoad
  | InitForceMode
  | InitPositionMode
  | ApplyU (u : Fin 6 → ℝ)
  | ApplyQ (q : Fin 6 → ℝ)
  | ApplyQHand (b : Bool)

/-- The state of the hardware link as seen through the interface. -/
structure LinkState where
  mode : ControlMode
  calls : List LinkCall
  raw : RawFeedback
  torqueLoad : Fin 6 → ℝ

/-- interface.connect: `self.jaco2.Connect()`. -/
def connect (s : LinkState) : LinkState :=
  { s with calls := s.calls ++ [LinkCall.Connect] }

/-- interface.disconnect: `self.jaco2.Disconnect()`. -/
def disconnect (s : LinkState) : LinkState :=
  { s with calls := s.calls ++ [LinkCall.Disconnect] }

/-- interface.get_feedback: reads `self.jaco2.GetFeedback()` and converts
`q` by `(q * np.pi / 180.0) % (2 * np.pi)` and `dq` by `dq * np.pi / 180.0`. -/
noncomputable def get_feedback (s : LinkState) : Feedback × LinkState :=
  (⟨fun i => normalize (degToRad (s.raw.q i)), fun i => degToRad (s.raw.dq i)⟩,
   { s with calls := s.calls ++ [LinkCall.GetFeedback] })

/-- interface.get_position: the body is literally `return self.get_feedback()`. -/
noncomputable def get_position (s : LinkState) : Feedback × LinkState :=
  get_feedback s

/-- interface.get_torque_load: passthrough of `self.jaco2.GetTorqueLoad()`. -/
def get_torque_load (s : LinkState) : (Fin 6 → ℝ) × LinkState :=
  (s.torqueLoad, { s with calls := s.calls ++ [LinkCall.GetTorqueLoad] })

/-- interface.init_force_mode: `self.jaco2.InitForceMode()`, switching the
arm to torque control mode. -/
def init_force_mode (s : LinkState) : LinkState :=
  { s with mode := ControlMode.forceControl, calls := s.calls ++ [LinkCall.InitForceMode] }

/-- interface.init_position_mode: `self.jaco2.InitPositionMode()`, switching
the arm to position control mode. -/
def init_position_mode (s : LinkState) : LinkState :=
  { s with mode := ControlMode.positionControl, calls := s.calls ++ [LinkCall.InitPositionMode] }

/-- interface.open_hand: `self.jaco2.ApplyQHand(open)`. -/
def open_hand (s : LinkState) (b : Bool) : LinkState :=
  { s with calls := s.calls ++ [LinkCall.ApplyQHand b] }

/-- interface.send_forces: the body is exactly `self.jaco2.ApplyU(u)` —
the torque command is forwarded to the link unconditionally, with no mode
check, no flag and no error path. -/
def send_forces (s : LinkState) (u : Fin 6 → ℝ) : LinkState :=
  { s with calls := s.calls ++ [LinkCall.ApplyU u] }

/-- interface.send_target_angles: `q = np.array(q) * 180.0 / np.pi` followed
by `self.jaco2.ApplyQ(q)` — a bare linear conversion, no range check and no
normalization. -/
noncomputable def send_target_angles (s : LinkState) (q : Fin 6 → ℝ) : LinkState :=
  { s with calls := s.calls ++ [LinkCall.ApplyQ (fun i => radToDeg (q i))] }

/-! ## Control loop driver model (examples/adaptive_reach.py and
examples/control_loop_speed_test.py)

Both example scripts have the shape

  pre-warm the controller with zeros        (before connecting)
  interface.connect()
  interface.init_position_mode()
  interface.send_target_angles(robot_config.INIT_TORQUE_POSITION)
  try:
      interface.init_force_mode()
      ... tick loop ...
  except:                                   (caught, traceback printed)
  finally:
      interface.init_position_mode()
      interface.send_target_angles(robot_config.INIT_TORQUE_POSITION)
      interface.disconnect()

We record the calls each script makes as a trace of `Event`s, and model a
raised exception (a fault or an external cancellation) at a chosen call
site: the raising call emits no event and skips the rest of its block.
An exception raised before the `try` block propagates and ends the script
with no further calls; an exception raised inside the `try` block is
followed by the `finally` shutdown calls.
-/

/-- The observable calls made by the example scripts: interface calls plus
the external controller / planner / adaptive-signal calls. -/
inductive Event where
  | preWarm
  | connect
  | initPositionMode
  | sendTargetAnglesHome
  | initForceMode
  | pathStep
  | getFeedback
  | computeCtrl
  | adaptGenerate
  | sendForces
  | disconnect
deriving DecidableEq

/-- Fault-injection points inside the tick body, as listed by the spec:
the feedback read, the controller computation, or the command send. -/
inductive TickStep where
  | feedbackRead
  | controllerCompute
  | commandSend
deriving DecidableEq

/-- Fault-injection points in the startup sequence of the scripts. -/
inductive StartupStep where
  | preWarm
  | connect
  | initPositionMode
  | sendHome
  | initForceMode
deriving DecidableEq

/-- A fault (raised exception or external cancellation) injected at a
startup step or at a step of tick number `n` (0-based). -/
inductive Fault where
  | duringStartup (st : StartupStep)
  | duringTick (n : Nat) (s : TickStep)
deriving DecidableEq

/-- Run a straight-line block of calls, each tagged with whether it raises:
a raising call emits no event and aborts the rest of the block.  Returns
the emitted trace and whether the block completed without raising. -/
def runSeq : List (Event × Bool) → List Event × Bool
  | [] => ([], true)
  | (_, true) :: _ => ([], false)
  | (e, false) :: rest =>
    let r := runSeq rest
    (e :: r.1, r.2)

/-- The fault (if any) hitting the current tick, i.e. tick number 0. -/
def headFault : Option (Nat × TickStep) → Option TickStep
  | some (0, s) => some s
  | _ => none

/-- The fault plan shifted past the current tick. -/
def restFault : Option (Nat × TickStep) → Option (Nat × TickStep)
  | some (n + 1, s) => some (n, s)
  | f => f

/-- One tick of adaptive_reach.py (lines 86-142): planner step, feedback
read, controller computation, adaptive signal, command send. -/
def tickStepsAR (f : Option TickStep) : List (Event × Bool) :=
  [(Event.pathStep, false),
   (Event.getFeedback, decide (f = some TickStep.feedbackRead)),
   (Event.computeCtrl, decide (f = some TickStep.controllerCompute)),
   (Event.adaptGenerate, false),
   (Event.sendForces, decide (f = some TickStep.commandSend))]

/-- One tick of control_loop_speed_test.py (lines 37-47): feedback read,
controller computation, command send. -/
def tickStepsST (f : Option TickStep) : List (Event × Bool) :=
  [(Event.getFeedback, decide (f = some TickStep.feedbackRead)),
   (Event.computeCtrl, decide (f = some TickStep.controllerCompute)),
   (Event.sendForces, decide (f = some TickStep.commandSend))]

/-- The `while loop_time < time_limit` loop of adaptive_reach.py, modelled
as `ticks` iterations (the stopping condition is wall-clock time). -/
def loopStepsAR : Nat → Option (Nat × TickStep) → List (Event × Bool)
  | 0, _ => []
  | n + 1, f => tickStepsAR (headFault f) ++ loopStepsAR n (restFault f)

/-- The `while run_time < 10` loop of control_loop_speed_test.py. -/
def loopStepsST : Nat → Option (Nat × TickStep) → List (Event × Bool)
  | 0, _ => []
  | n + 1, f => tickStepsST (headFault f) ++ loopStepsST n (restFault f)

/-- The startup-step fault of a fault plan, if any. -/
def startupFaultOf : Option Fault → Option StartupStep
  | some (Fault.duringStartup st) => some st
  | _ => none

/-- The tick fault of a fault plan, if any. -/
def tickFaultOf : Option Fault → Option (Nat × TickStep)
  | some (Fault.duringTick n s) => some (n, s)
  | _ => none

/-- The calls both scripts make before their `try` block, in source order:
pre-warm of the controller with zeros (adaptive_reach.py 43-45,
control_loop_speed_test.py 17-18), then connect, init_position_mode,
send_target_angles(INIT_TORQUE_POSITION) (adaptive_reach.py 64-66,
control_loop_speed_test.py 26-30). -/
def startupSteps (sf : Option StartupStep) : List (Event × Bool) :=
  [(Event.preWarm, decide (sf = some StartupStep.preWarm)),
   (Event.connect, decide (sf = some StartupStep.connect)),
   (Event.initPositionMode, decide (sf = some StartupStep.initPositionMode)),
   (Event.sendTargetAnglesHome, decide (sf = some StartupStep.sendHome))]

/-- The `try` block of adaptive_reach.py (lines 71-142): init_force_mode,
two pre-loop feedback reads (lines 75 and 80), then the tick loop. -/
def tryStepsAR (ticks : Nat) (sf : Option StartupStep) (tf : Option (Nat × TickStep)) :
    List (Event × Bool) :=
  (Event.initForceMode, decide (sf = some StartupStep.initForceMode)) ::
    (Event.getFeedback, false) :: (Event.getFeedback, false) :: loopStepsAR ticks tf

/-- The `try` block of control_loop_speed_test.py (lines 31-47):
init_force_mode, then the tick loop. -/
def tryStepsST (ticks : Nat) (sf : Option StartupStep) (tf : Option (Nat × TickStep)) :
    List (Event × Bool) :=
  (Event.initForceMode, decide (sf = some StartupStep.initForceMode)) ::
    loopStepsST ticks tf

/-- The `finally` block shared by both scripts: init_position_mode,
send_target_angles(INIT_TORQUE_POSITION), disconnect. -/
def shutdownSeq : List Event :=
  [Event.initPositionMode, Event.sendTargetAnglesHome, Event.disconnect]

/-- The trace of a session of adaptive_reach.py running `ticks` loop
iterations, with an optional injected fault.  A fault before the `try`
block propagates and ends the script; any fault inside the `try` block is
caught by the bare `except` and the `finally` shutdown always runs. -/
def adaptiveReachRun (ticks : Nat) (fault : Option Fault) : List Event :=
  let su := runSeq (startupSteps (startupFaultOf fault))
  if su.2 then
    su.1 ++ ((runSeq (tryStepsAR ticks (startupFaultOf fault) (tickFaultOf fault))).1 ++ shutdownSeq)
  else su.1

/-- The trace of a session of control_loop_speed_test.py, as
`adaptiveReachRun` (its `except Exception` also swallows tick faults, and
its `finally` also always runs). -/
def speedTestRun (ticks : Nat) (fault : Option Fault) : List Event :=
  let su := runSeq (startupSteps (startupFaultOf fault))
  if su.2 then
    su.1 ++ ((runSeq (tryStepsST ticks (startupFaultOf fault) (tickFaultOf fault))).1 ++ shutdownSeq)
  else su.1

/-! ## Per-tick command assembly (adaptive_reach.py lines 107-131) -/

/-- The stiction adjustment of adaptive_reach.py lines 107-111:

  if u_base[0] > 0: u_base[0] *= 3.0
  else:             u_base[0] *= 2.0

applied in place to the base joint only. -/
noncomputable def stiction (u : Fin 6 → ℝ) : Fin 6 → ℝ := fun i =>
  if i = 0 then (if u 0 > 0 then u 0 * 3 else u 0 * 2) else u i

/-- The padded adaptive signal of adaptive_reach.py lines 123-128:
`u_adapt = np.array([0, u_adapt[0], u_adapt[1], 0, 0, 0])` where the raw
`u_adapt` is the 2-vector returned by `adapt.generate`. -/
noncomputable def u_adapt_full (a : Fin 2 → ℝ) : Fin 6 → ℝ :=
  ![0, a 0, a 1, 0, 0, 0]

/-- The total command of adaptive_reach.py line 129: `u = u_base + u_adapt`,
where `u_base` has already been stiction-adjusted in place. -/
noncomputable def u_total (uBase : Fin 6 → ℝ) (a : Fin 2 → ℝ) : Fin 6 → ℝ :=
  fun i => stiction uBase i + u_adapt_full a i

/-! ## Helper lemmas -/

theorem two_pi_pos : (0:ℝ) < 2 * Real.pi := by positivity

theorem pymod_nonneg (a b : ℝ) (hb : 0 < b) : 0 ≤ pymod a b := by
  have h1 : (⌊a / b⌋ : ℝ) ≤ a / b := Int.floor_le _
  have h2 : b * (⌊a / b⌋ : ℝ) ≤ b * (a / b) := mul_le_mul_of_nonneg_left h1 hb.le
  have h3 : b * (a / b) = a := by field_simp
  unfold pymod
  linarith

theorem pymod_lt (a b : ℝ) (hb : 0 < b) : pymod a b < b := by
  have h1 : a / b < (⌊a / b⌋ : ℝ) + 1 := Int.lt_floor_add_one _
  have h2 : b * (a / b) < b * ((⌊a / b⌋ : ℝ) + 1) := mul_lt_mul_of_pos_left h1 hb
  have h3 : b * (a / b) = a := by field_simp
  have h4 : b * ((⌊a / b⌋ : ℝ) + 1) = b * (⌊a / b⌋ : ℝ) + b := by ring
  unfold pymod
  linarith

theorem pymod_eq_self (a b : ℝ) (hb : 0 < b) (h0 : 0 ≤ a) (h1 : a < b) : pymod a b = a := by
  have hf : ⌊a / b⌋ = 0 := by
    rw [Int.floor_eq_zero_iff]
    exact ⟨div_nonneg h0 hb.le, (div_lt_one hb).mpr h1⟩
  unfold pymod
  rw [hf]
  simp

theorem degToRad_radToDeg (x : ℝ) : degToRad (radToDeg x) = x := by
  unfold degToRad radToDeg
  have h := Real.pi_ne_zero
  field_simp

theorem normalize_two_pi : normalize (2 * Real.pi) = 0 := by
  unfold normalize pymod
  rw [div_self (ne_of_gt two_pi_pos)]
  simp

theorem runSeq_mem {e : Event} :
    ∀ steps : List (Event × Bool), e ∈ (runSeq steps).1 → e ∈ steps.map Prod.fst := by
  intro steps
  induction steps with
  | nil => simp [runSeq]
  | cons p rest ih =>
    rcases p with ⟨ev, b⟩
    cases b with
    | true => simp [runSeq]
    | false =>
      simp only [runSeq, List.map_cons, List.mem_cons]
      rintro (rfl | h)
      · exact Or.inl rfl
      · exact Or.inr (ih h)

theorem loopStepsAR_events :
    ∀ (ticks : Nat) (tf : Option (Nat × TickStep)) (e : Event),
      e ∈ (loopStepsAR ticks tf).map Prod.fst →
      e = Event.pathStep ∨ e = Event.getFeedback ∨ e = Event.computeCtrl ∨
        e = Event.adaptGenerate ∨ e = Event.sendForces := by
  intro ticks
  induction ticks with
  | zero => intro tf e h; simp [loopStepsAR] at h
  | succ n ih =>
    intro tf e h
    simp only [loopStepsAR, List.map_append, List.mem_append] at h
    rcases h with h | h
    · simp [tickStepsAR] at h
      tauto
    · exact ih _ e h

theorem loopStepsST_events :
    ∀ (ticks : Nat) (tf : Option (Nat × TickStep)) (e : Event),
      e ∈ (loopStepsST ticks tf).map Prod.fst →
      e = Event.getFeedback ∨ e = Event.computeCtrl ∨ e = Event.sendForces := by
  intro ticks
  induction ticks with
  | zero => intro tf e h; simp [loopStepsST] at h
  | succ n ih =>
    intro tf e h
    simp only [loopStepsST, List.map_append, List.mem_append] at h
    rcases h with h | h
    · simp [tickStepsST] at h
      tauto
    · exact ih _ e h

theorem notMem_loopAR (ticks : Nat) (tf : Option (Nat × TickStep)) {e : Event}
    (h1 : e ≠ Event.pathStep) (h2 : e ≠ Event.getFeedback) (h3 : e ≠ Event.computeCtrl)
    (h4 : e ≠ Event.adaptGenerate) (h5 : e ≠ Event.sendForces) :
    e ∉ (runSeq (loopStepsAR ticks tf)).1 := by
  intro hmem
  rcases loopStepsAR_events ticks tf _ (runSeq_mem _ hmem) with h | h | h | h | h
  exacts [h1 h, h2 h, h3 h, h4 h, h5 h]

theorem notMem_loopST (ticks : Nat) (tf : Option (Nat × TickStep)) {e : Event}
    (h2 : e ≠ Event.getFeedback) (h3 : e ≠ Event.computeCtrl) (h5 : e ≠ Event.sendForces) :
    e ∉ (runSeq (loopStepsST ticks tf)).1 := by
  intro hmem
  rcases loopStepsST_events ticks tf _ (runSeq_mem _ hmem) with h | h | h
  exacts [h2 h, h3 h, h5 h]

theorem adaptiveReachRun_tickFault (ticks : Nat) (fault : Option (Nat × TickStep)) :
    adaptiveReachRun ticks (fault.map fun p => Fault.duringTick p.1 p.2) =
      (Event.preWarm :: Event.connect :: Event.initPositionMode :: Event.sendTargetAnglesHome ::
       Event.initForceMode :: Event.getFeedback :: Event.getFeedback ::
       (runSeq (loopStepsAR ticks fault)).1) ++ shutdownSeq := by
  rcases fault with _ | ⟨n, s⟩ <;> rfl

theorem speedTestRun_tickFault (ticks : Nat) (fault : Option (Nat × TickStep)) :
    speedTestRun ticks (fault.map fun p => Fault.duringTick p.1 p.2) =
      (Event.preWarm :: Event.connect :: Event.initPositionMode :: Event.sendTargetAnglesHome ::
       Event.initForceMode :: (runSeq (loopStepsST ticks fault)).1) ++ shutdownSeq := by
  rcases fault with _ | ⟨n, s⟩ <;> rfl

/-! ## Claims -/

/-- C1: for every session of either control-loop script and every exit path
(normal completion after any number of ticks, or a fault / external
cancellation injected at any tick-body step: feedback read, controller
computation, or command send), the trace still ends with exactly
init_position_mode, send_target_angles(home), disconnect, in that order,
after the loop exits, and disconnect is issued nowhere else. -/
theorem C1_shutdown_protocol (ticks : Nat) (fault : Option (Nat × TickStep)) :
    (∃ pre, adaptiveReachRun ticks (fault.map fun p => Fault.duringTick p.1 p.2) =
        pre ++ shutdownSeq ∧ Event.disconnect ∉ pre) ∧
    (∃ pre, speedTestRun ticks (fault.map fun p => Fault.duringTick p.1 p.2) =
        pre ++ shutdownSeq ∧ Event.disconnect ∉ pre) := by
  constructor
  · refine ⟨_, adaptiveReachRun_tickFault ticks fault, ?_⟩
    intro hmem
    simp only [List.mem_cons] at hmem
    rcases hmem with h | h | h | h | h | h | h | h
    exacts [Event.noConfusion h, Event.noConfusion h, Event.noConfusion h, Event.noConfusion h,
      Event.noConfusion h, Event.noConfusion h, Event.noConfusion h,
      notMem_loopAR ticks fault (by decide) (by decide) (by decide) (by decide) (by decide) h]
  · refine ⟨_, speedTestRun_tickFault ticks fault, ?_⟩
    intro hmem
    simp only [List.mem_cons] at hmem
    rcases hmem with h | h | h | h | h | h
    exacts [Event.noConfusion h, Event.noConfusion h, Event.noConfusion h, Event.noConfusion h,
      Event.noConfusion h, notMem_loopST ticks fault (by decide) (by decide) (by decide) h]

/-- C2: get_feedback converts each raw joint position from degrees to
radians and normalizes it by the Python float modulo into [0, 2*pi), and
converts each raw velocity to radians/sec by the bare linear map with no
normalization. -/
theorem C2_get_feedback_conversion (s : LinkState) (i : Fin 6) :
    (get_feedback s).1.q i = pymod (s.raw.q i * Real.pi / 180) (2 * Real.pi) ∧
    0 ≤ (get_feedback s).1.q i ∧ (get_feedback s).1.q i < 2 * Real.pi ∧
    (get_feedback s).1.dq i = s.raw.dq i * Real.pi / 180 :=
  ⟨rfl, pymod_nonneg _ _ two_pi_pos, pymod_lt _ _ two_pi_pos, rfl⟩

/-- C3 counterexample: the round trip is not the identity on all angle
vectors.  For the constant vector 2*pi, the hardware echoing back exactly
the degrees transmitted by send_target_angles makes get_feedback report 0,
not 2*pi, because of the [0, 2*pi) normalization. -/
theorem C3_counterexample :
    (get_feedback (LinkState.mk ControlMode.uninitialized []
        (RawFeedback.mk (fun _ => radToDeg (2 * Real.pi)) fun _ => 0)
        fun _ => 0)).1.q 0 ≠ 2 * Real.pi := by
  show normalize (degToRad (radToDeg (2 * Real.pi))) ≠ 2 * Real.pi
  rw [degToRad_radToDeg, normalize_two_pi]
  exact (ne_of_lt two_pi_pos)

/-- C3 (amended): for joint angle vectors with every component in
[0, 2*pi), converting to degrees as send_target_angles does and back to
radians as get_feedback does (normalization included) restores the vector
exactly; and the position feedback conversion always lands in [0, 2*pi). -/
theorem C3_round_trip (q : Fin 6 → ℝ) (s : LinkState)
    (hecho : s.raw.q = fun i => radToDeg (q i))
    (hrange : ∀ i, 0 ≤ q i ∧ q i < 2 * Real.pi) :
    (get_feedback s).1.q = q ∧
    ∀ (s2 : LinkState) (i : Fin 6),
      0 ≤ (get_feedback s2).1.q i ∧ (get_feedback s2).1.q i < 2 * Real.pi := by
  constructor
  · funext i
    show normalize (degToRad (s.raw.q i)) = q i
    rw [hecho]
    show normalize (degToRad (radToDeg (q i))) = q i
    rw [degToRad_radToDeg]
    exact pymod_eq_self _ _ two_pi_pos (hrange i).1 (hrange i).2
  · intro s2 i
    exact ⟨pymod_nonneg _ _ two_pi_pos, pymod_lt _ _ two_pi_pos⟩

/-- Witness for C3_round_trip at the zero vector. -/
theorem C3_round_trip_witness :
    (get_feedback (LinkState.mk ControlMode.uninitialized []
        (RawFeedback.mk (fun i => radToDeg ((fun _ => (0:ℝ)) i)) fun _ => 0)
        fun _ => 0)).1.q = (fun _ => (0:ℝ)) ∧
    ∀ (s2 : LinkState) (i : Fin 6),
      0 ≤ (get_feedback s2).1.q i ∧ (get_feedback s2).1.q i < 2 * Real.pi :=
  C3_round_trip (fun _ => 0) _ rfl (fun _ => ⟨le_refl 0, two_pi_pos⟩)

/-- C4 counterexample: with the arm in position control mode, send_forces
is silently accepted and the torque command is forwarded to the hardware
link as ApplyU; nothing is rejected or flagged (the operation has no error
outcome at all and leaves the mode untouched). -/
theorem C4_counterexample :
    (LinkState.mk ControlMode.positionControl [] (RawFeedback.mk (fun _ => 0) fun _ => 0)
        fun _ => 0).mode ≠ ControlMode.forceControl ∧
    (send_forces (LinkState.mk ControlMode.positionControl []
        (RawFeedback.mk (fun _ => 0) fun _ => 0) fun _ => 0) fun _ => 0).calls =
      [LinkCall.ApplyU fun _ => 0] ∧
    (send_forces (LinkState.mk ControlMode.positionControl []
        (RawFeedback.mk (fun _ => 0) fun _ => 0) fun _ => 0) fun _ => 0).mode =
      ControlMode.positionControl :=
  ⟨fun h => ControlMode.noConfusion h, rfl, rfl⟩

/-- C4 (amended): send_forces forwards the torque command to the hardware
link via ApplyU unconditionally, whatever the current control mode; the
interface performs no mode check, raises no flag, and changes nothing
besides appending the ApplyU call. -/
theorem C4_send_forces_forwards (s : LinkState) (u : Fin 6 → ℝ) :
    (send_forces s u).calls = s.calls ++ [LinkCall.ApplyU u] ∧
    (send_forces s u).mode = s.mode ∧
    (send_forces s u).raw = s.raw ∧
    (send_forces s u).torqueLoad = s.torqueLoad :=
  ⟨rfl, rfl, rfl, rfl⟩

/-- C5 counterexample: in a fault-free one-tick session of
adaptive_reach.py the five startup calls are, in order, pre-warm, connect,
init_position_mode, send_target_angles(home), init_force_mode — not the
claimed order connect, init_position_mode, send_target_angles(home),
pre-warm, init_force_mode (the pre-warm happens first, before connect). -/
theorem C5_counterexample :
    (adaptiveReachRun 1 none).take 5 ≠
      [Event.connect, Event.initPositionMode, Event.sendTargetAnglesHome, Event.preWarm,
       Event.initForceMode] ∧
    (adaptiveReachRun 1 none).take 5 =
      [Event.preWarm, Event.connect, Event.initPositionMode, Event.sendTargetAnglesHome,
       Event.initForceMode] :=
  ⟨by decide, by decide⟩

/-- C5 (amended): every startup of either script performs pre-warm of the
external controller with a zero input first, then connect, then
init_position_mode, then send_target_angles(home), then init_force_mode,
each exactly once with no retry; a failure in any step before
init_force_mode aborts startup and propagates with no further calls (and
no shutdown), while a failure of init_force_mode aborts before any tick,
is caught, and is still followed by the shutdown protocol. -/
theorem C5_startup_protocol (ticks : Nat) (fault : Option (Nat × TickStep)) :
    (adaptiveReachRun ticks (fault.map fun p => Fault.duringTick p.1 p.2)).take 5 =
      [Event.preWarm, Event.connect, Event.initPositionMode, Event.sendTargetAnglesHome,
       Event.initForceMode] ∧
    (speedTestRun ticks (fault.map fun p => Fault.duringTick p.1 p.2)).take 5 =
      [Event.preWarm, Event.connect, Event.initPositionMode, Event.sendTargetAnglesHome,
       Event.initForceMode] ∧
    (adaptiveReachRun ticks (fault.map fun p => Fault.duringTick p.1 p.2)).count
      Event.preWarm = 1 ∧
    (adaptiveReachRun ticks (fault.map fun p => Fault.duringTick p.1 p.2)).count
      Event.connect = 1 ∧
    (adaptiveReachRun ticks (fault.map fun p => Fault.duringTick p.1 p.2)).count
      Event.initForceMode = 1 ∧
    (speedTestRun ticks (fault.map fun p => Fault.duringTick p.1 p.2)).count
      Event.preWarm = 1 ∧
    (speedTestRun ticks (fault.map fun p => Fault.duringTick p.1 p.2)).count
      Event.connect = 1 ∧
    (speedTestRun ticks (fault.map fun p => Fault.duringTick p.1 p.2)).count
      Event.initForceMode = 1 ∧
    adaptiveReachRun ticks (some (Fault.duringStartup StartupStep.preWarm)) = [] ∧
    adaptiveReachRun ticks (some (Fault.duringStartup StartupStep.connect)) =
      [Event.preWarm] ∧
    adaptiveReachRun ticks (some (Fault.duringStartup StartupStep.initPositionMode)) =
      [Event.preWarm, Event.connect] ∧
    adaptiveReachRun ticks (some (Fault.duringStartup StartupStep.sendHome)) =
      [Event.preWarm, Event.connect, Event.initPositionMode] ∧
    adaptiveReachRun ticks (some (Fault.duringStartup StartupStep.initForceMode)) =
      [Event.preWarm, Event.connect, Event.initPositionMode, Event.sendTargetAnglesHome] ++
        shutdownSeq ∧
    speedTestRun ticks (some (Fault.duringStartup StartupStep.preWarm)) = [] ∧
    speedTestRun ticks (some (Fault.duringStartup StartupStep.connect)) =
      [Event.preWarm] ∧
    speedTestRun ticks (some (Fault.duringStartup StartupStep.initPositionMode)) =
      [Event.preWarm, Event.connect] ∧
    speedTestRun ticks (some (Fault.duringStartup StartupStep.sendHome)) =
      [Event.preWarm, Event.connect, Event.initPositionMode] ∧
    speedTestRun ticks (some (Fault.duringStartup StartupStep.initForceMode)) =
      [Event.preWarm, Event.connect, Event.initPositionMode, Event.sendTargetAnglesHome] ++
        shutdownSeq := by
  have hAR := adaptiveReachRun_tickFault ticks fault
  have hST := speedTestRun_tickFault ticks fault
  have hzAR : ∀ e : Event, e ≠ Event.pathStep → e ≠ Event.getFeedback →
      e ≠ Event.computeCtrl → e ≠ Event.adaptGenerate → e ≠ Event.sendForces →
      (runSeq (loopStepsAR ticks fault)).1.count e = 0 := fun e h1 h2 h3 h4 h5 =>
    List.count_eq_zero.mpr (notMem_loopAR ticks fault h1 h2 h3 h4 h5)
  have hzST : ∀ e : Event, e ≠ Event.getFeedback → e ≠ Event.computeCtrl →
      e ≠ Event.sendForces → (runSeq (loopStepsST ticks fault)).1.count e = 0 :=
    fun e h2 h3 h5 => List.count_eq_zero.mpr (notMem_loopST ticks fault h2 h3 h5)
  refine ⟨by rw [hAR]; rfl, by rw [hST]; rfl, ?_, ?_, ?_, ?_, ?_, ?_,
    rfl, rfl, rfl, rfl, rfl, rfl, rfl, rfl, rfl, rfl⟩
  · rw [hAR]
    have hz := hzAR Event.preWarm (by decide) (by decide) (by decide) (by decide) (by decide)
    simp [shutdownSeq, List.count_append, List.count_cons, hz]
  · rw [hAR]
    have hz := hzAR Event.connect (by decide) (by decide) (by decide) (by decide) (by decide)
    simp [shutdownSeq, List.count_append, List.count_cons, hz]
  · rw [hAR]
    have hz := hzAR Event.initForceMode (by decide) (by decide) (by decide) (by decide)
      (by decide)
    simp [shutdownSeq, List.count_append, List.count_cons, hz]
  · rw [hST]
    have hz := hzST Event.preWarm (by decide) (by decide) (by decide)
    simp [shutdownSeq, List.count_append, List.count_cons, hz]
  · rw [hST]
    have hz := hzST Event.connect (by decide) (by decide) (by decide)
    simp [shutdownSeq, List.count_append, List.count_cons, hz]
  · rw [hST]
    have hz := hzST Event.initForceMode (by decide) (by decide) (by decide)
    simp [shutdownSeq, List.count_append, List.count_cons, hz]

/-- C6: the stiction compensation multiplies the base joint's command by
3.0 when it is positive and by 2.0 otherwise, and leaves every other
joint's command unchanged. -/
theorem C6_stiction_scaling (u : Fin 6 → ℝ) :
    stiction u 0 = (if 0 < u 0 then 3 * u 0 else 2 * u 0) ∧
    ∀ i : Fin 6, i ≠ 0 → stiction u i = u i := by
  constructor
  · show (if (0:Fin 6) = 0 then (if u 0 > 0 then u 0 * 3 else u 0 * 2) else u 0) = _
    rw [if_pos rfl]
    simp only [gt_iff_lt]
    split_ifs with h <;> ring
  · intro i hi
    simp [stiction, hi]

/-- Witness for C6_stiction_scaling at a non-base joint. -/
theorem C6_stiction_scaling_witness : stiction (fun _ => (1:ℝ)) 1 = 1 :=
  (C6_stiction_scaling fun _ => 1).2 1 (by decide)

/-- C7: the total command equals the stiction-compensated base command on
joints 0, 3, 4, 5 and equals the compensated base plus the adaptive output
on joints 1 and 2. -/
theorem C7_adaptive_subset (uBase : Fin 6 → ℝ) (a : Fin 2 → ℝ) (i : Fin 6)
    (hi : i ≠ 1 ∧ i ≠ 2) :
    u_total uBase a i = stiction uBase i ∧
    u_total uBase a 1 = stiction uBase 1 + a 0 ∧
    u_total uBase a 2 = stiction uBase 2 + a 1 := by
  obtain ⟨h1, h2⟩ := hi
  refine ⟨?_, rfl, rfl⟩
  have hz : u_adapt_full a i = 0 := by
    fin_cases i <;> first | rfl | simp_all
  show stiction uBase i + u_adapt_full a i = stiction uBase i
  rw [hz, add_zero]

/-- Witness for C7_adaptive_subset at the base joint. -/
theorem C7_adaptive_subset_witness :
    u_total (fun _ => (1:ℝ)) (fun _ => (1:ℝ)) 0 = stiction (fun _ => (1:ℝ)) 0 ∧
    u_total (fun _ => (1:ℝ)) (fun _ => (1:ℝ)) 1 = stiction (fun _ => (1:ℝ)) 1 + 1 ∧
    u_total (fun _ => (1:ℝ)) (fun _ => (1:ℝ)) 2 = stiction (fun _ => (1:ℝ)) 2 + 1 :=
  C7_adaptive_subset (fun _ => 1) (fun _ => 1) 0 ⟨by decide, by decide⟩

/-- C8: every interface operation leaves the link's responses untouched
and only ever changes the command mode (the two init operations set it;
every other operation preserves it) while appending exactly its own
primitive to the wire; and a repeated read against the same link responses
returns the identical value. -/
theorem C8_interface_stateless (s : LinkState) (u q : Fin 6 → ℝ) (b : Bool) :
    ((get_feedback s).2.mode = s.mode ∧ (get_feedback s).2.raw = s.raw ∧
      (get_feedback s).2.torqueLoad = s.torqueLoad ∧
      (get_feedback s).2.calls = s.calls ++ [LinkCall.GetFeedback]) ∧
    ((get_torque_load s).2.mode = s.mode ∧ (get_torque_load s).2.raw = s.raw ∧
      (get_torque_load s).2.torqueLoad = s.torqueLoad ∧
      (get_torque_load s).2.calls = s.calls ++ [LinkCall.GetTorqueLoad]) ∧
    ((send_forces s u).mode = s.mode ∧ (send_forces s u).raw = s.raw ∧
      (send_forces s u).torqueLoad = s.torqueLoad ∧
      (send_forces s u).calls = s.calls ++ [LinkCall.ApplyU u]) ∧
    ((send_target_angles s q).mode = s.mode ∧ (send_target_angles s q).raw = s.raw ∧
      (send_target_angles s q).torqueLoad = s.torqueLoad ∧
      (send_target_angles s q).calls =
        s.calls ++ [LinkCall.ApplyQ fun i => radToDeg (q i)]) ∧
    ((open_hand s b).mode = s.mode ∧ (open_hand s b).raw = s.raw ∧
      (open_hand s b).torqueLoad = s.torqueLoad ∧
      (open_hand s b).calls = s.calls ++ [LinkCall.ApplyQHand b]) ∧
    ((init_position_mode s).mode = ControlMode.positionControl ∧
      (init_position_mode s).raw = s.raw ∧
      (init_position_mode s).torqueLoad = s.torqueLoad ∧
      (init_position_mode s).calls = s.calls ++ [LinkCall.InitPositionMode]) ∧
    ((init_force_mode s).mode = ControlMode.forceControl ∧
      (init_force_mode s).raw = s.raw ∧
      (init_force_mode s).torqueLoad = s.torqueLoad ∧
      (init_force_mode s).calls = s.calls ++ [LinkCall.InitForceMode]) ∧
    (get_feedback ((get_feedback s).2)).1 = (get_feedback s).1 ∧
    (get_torque_load ((get_torque_load s).2)).1 = (get_torque_load s).1 :=
  ⟨⟨rfl, rfl, rfl, rfl⟩, ⟨rfl, rfl, rfl, rfl⟩, ⟨rfl, rfl, rfl, rfl⟩, ⟨rfl, rfl, rfl, rfl⟩,
   ⟨rfl, rfl, rfl, rfl⟩, ⟨rfl, rfl, rfl, rfl⟩, ⟨rfl, rfl, rfl, rfl⟩, rfl, rfl⟩

/-- C9: get_position is extensionally identical to get_feedback — same
returned q and dq and same effect on the link — for every link state. -/
theorem C9_get_position_eq_get_feedback (s : LinkState) :
    get_position s = get_feedback s ∧
    (get_position s).1.q = (get_feedback s).1.q ∧
    (get_position s).1.dq = (get_feedback s).1.dq :=
  ⟨rfl, rfl, rfl⟩

/-- C10: send_target_angles transmits exactly the linear conversion
q * 180 / pi to the link with no range check or normalization, and that
conversion sends any angle outside [0, 2*pi) to a value outside
[0, 360) degrees. -/
theorem C10_send_target_angles_linear (s : LinkState) (q : Fin 6 → ℝ) (x : ℝ)
    (hx : x < 0 ∨ 2 * Real.pi ≤ x) :
    (send_target_angles s q).calls = s.calls ++ [LinkCall.ApplyQ fun i => radToDeg (q i)] ∧
    (radToDeg x < 0 ∨ 360 ≤ radToDeg x) := by
  refine ⟨rfl, ?_⟩
  have hpi := Real.pi_pos
  rcases hx with h | h
  · left
    unfold radToDeg
    apply div_neg_of_neg_of_pos _ hpi
    linarith
  · right
    unfold radToDeg
    rw [le_div_iff₀ hpi]
    linarith

/-- Witness for C10_send_target_angles_linear at the angle -1 radian. -/
theorem C10_send_target_angles_linear_witness :
    (send_target_angles (LinkState.mk ControlMode.positionControl []
        (RawFeedback.mk (fun _ => 0) fun _ => 0) fun _ => 0) fun _ => 0).calls =
      [] ++ [LinkCall.ApplyQ fun i => radToDeg ((fun _ => (0:ℝ)) i)] ∧
    (radToDeg (-1) < 0 ∨ 360 ≤ radToDeg (-1)) :=
  C10_send_target_angles_linear _ _ (-1) (Or.inl (by norm_num))

end AbrJaco2
